import Mathlib

/-!
Verification development for the CyberGuardX website-security scanner.

The definitions below are a shallow embedding of the Python sources:

* `src/backend/app/security/risk_scorer.py` (`RiskScorer`),
* `src/backend/app/services/progress_tracker.py` and
  `src/backend/app/application/services/progress_tracker.py`
  (`ProgressTracker`; the two copies have identical step tables and
  identical update/terminal-flag logic),
* `src/backend/app/infrastructure/security/safety_validator.py`
  (`ScanRateLimiter`, `TargetValidator`, `SafetyValidator`),
* the pre-scan portion of
  `src/backend/app/application/services/website_scanner.py`
  (`WebsiteScanService.scan_website`) and the progress/cancel endpoints of
  `src/backend/app/api/website_scanner.py`.

Modelling conventions:
* Python `float` arithmetic on the small decimal weights is modelled with
  exact rationals (`ℚ`).  This is an idealization: at some bundles the
  double-precision weighted score falls on the other side of a grade-band
  edge than the exact value, so theorems evaluate the weighted score only
  at concrete points whose double computation is bit-exact, or compare
  scores whose exact gap dwarfs any rounding error; `int()` on the
  nonnegative score is the floor.  The grade and level band functions
  themselves compare their input against small integer thresholds, which
  is exact in double precision, so their band structure transfers to the
  program verbatim.
* `datetime.utcnow()` timestamps are modelled as natural numbers of
  seconds; `timedelta(minutes=10)` is `600` seconds.
* Database rows keyed by `scan_id` are modelled per key: a store entry is
  `Option ScanProgress` (`none` = no row for that key).  Wall-clock fields
  (`start_time`, `last_update`, `estimated_seconds_remaining`) are omitted:
  no claim mentions them and they influence nothing else.
* `socket.gethostbyname` is an external effect and is passed in as a
  resolver argument `String → Option IPv4`; `litResolver` is the concrete
  resolver used in theorems, resolving dotted-quad literals to themselves
  (the documented behaviour of `gethostbyname` on literal addresses) and
  failing on everything else.
-/

namespace CyberGuardX

/-! ## Risk scorer (`src/backend/app/security/risk_scorer.py`) -/

/-- One probe result dict as read by `RiskScorer.calculate_risk_score`:
only the `success` flag and the optional `risk_points` key are consulted
for the HTTP, SSL and DNS components (`d.get("risk_points", 0)`). -/
structure ProbeScan where
  success : Bool
  risk_points : Option ℕ
  deriving DecidableEq, Repr

/-- The technology probe result dict: `_calculate_tech_risk` reads
`web_server_version` (truthy = present non-empty string), the
`vulnerabilities` list (each entry's `severity`, defaulted to `"LOW"`
by `vuln.get("severity", "LOW")`, is recorded here directly) and
`security_technologies` (truthy = non-empty list). -/
structure TechScan where
  success : Bool
  web_server_version : Option String
  vulnerabilities : List String
  security_technologies : List String
  deriving DecidableEq, Repr

/-- Python truthiness of an optional string value. -/
def truthyStr : Option String → Bool
  | some s => !s.isEmpty
  | none => false

/-- Risk contribution of one technology vulnerability by severity
(`HIGH` 15, `MEDIUM` 8, `LOW` 3, anything else 0). -/
def vulnPoints (severity : String) : ℕ :=
  if severity = "HIGH" then 15
  else if severity = "MEDIUM" then 8
  else if severity = "LOW" then 3
  else 0

/-- `RiskScorer._calculate_tech_risk`: version disclosure +10, vulnerability
severities summed, +20 when no security technologies, capped at 100. -/
def calculate_tech_risk (t : TechScan) : ℕ :=
  let base := if truthyStr t.web_server_version then 10 else 0
  let withVulns := base + (t.vulnerabilities.map vulnPoints).sum
  let total := withVulns + (if t.security_technologies.isEmpty then 20 else 0)
  min total 100

/-- Component risk extraction for HTTP: `risk_points` on success, 100 on a
missing or failed probe (`http_scan.get("risk_points", 0) if
http_scan.get("success") else 100`). -/
def httpRisk (s : ProbeScan) : ℕ :=
  if s.success then s.risk_points.getD 0 else 100

/-- Component risk extraction for SSL/TLS: `risk_points` on success, 100 on
error. -/
def sslRisk (s : ProbeScan) : ℕ :=
  if s.success then s.risk_points.getD 0 else 100

/-- Component risk extraction for DNS: `risk_points` on success, 50 on
error. -/
def dnsRisk (s : ProbeScan) : ℕ :=
  if s.success then s.risk_points.getD 0 else 50

/-- Component risk extraction for technology: `_calculate_tech_risk` on
success, 50 on error. -/
def techRisk (t : TechScan) : ℕ :=
  if t.success then calculate_tech_risk t else 50

/-- `WEIGHTS`-weighted sum `http*0.30 + ssl*0.35 + dns*0.15 + tech*0.20`,
as the exact rational value.  This idealizes the source's double-precision
arithmetic: at some inputs the double result lands on the other side of a
grade-band edge than the exact value (e.g. (100, 99, 21, 11) computes to
just above 70 and (100, 38, 6, 9) to just below 46 in doubles, where the
exact values are 70 and 46).  Accordingly, theorems only evaluate this
score at concrete points whose double computation is bit-exact (12.75,
70.5, 70.0, and the C2 comparisons, which have an exact gap of at least
7.5 points); no theorem quantifies a band membership of the exact score
over all bundles. -/
def weightedScore (hr sr dr tr : ℕ) : ℚ :=
  (hr : ℚ) * (30 / 100) + (sr : ℚ) * (35 / 100) +
    (dr : ℚ) * (15 / 100) + (tr : ℚ) * (20 / 100)

/-- `RiskScorer._get_risk_level`, applied by the source to the un-truncated
weighted score.  The dict iteration tries the bands in insertion order;
a value in none of the closed bands yields `"UNKNOWN"`. -/
def get_risk_level (x : ℚ) : String :=
  if 80 ≤ x ∧ x ≤ 100 then "CRITICAL"
  else if 60 ≤ x ∧ x ≤ 79 then "HIGH"
  else if 40 ≤ x ∧ x ≤ 59 then "MEDIUM"
  else if 20 ≤ x ∧ x ≤ 39 then "LOW"
  else if 0 ≤ x ∧ x ≤ 19 then "MINIMAL"
  else "UNKNOWN"

/-- `RiskScorer._get_grade`, applied by the source to the un-truncated
weighted score; a value in none of the closed bands falls through to the
trailing `return "F"`. -/
def get_grade (x : ℚ) : String :=
  if 0 ≤ x ∧ x ≤ 10 then "A"
  else if 11 ≤ x ∧ x ≤ 25 then "B"
  else if 26 ≤ x ∧ x ≤ 45 then "C"
  else if 46 ≤ x ∧ x ≤ 70 then "D"
  else if 71 ≤ x ∧ x ≤ 100 then "F"
  else "F"

/-- The fields of the result dict of `RiskScorer.calculate_risk_score` that
carry the verdict: the per-component risk points stored under
`component_scores`, `weighted_risk_score` (`int(weighted_score)`),
`overall_risk_level` and `overall_grade`.  The breakdown/top-risks/summary
entries are derived presentation data not consulted by any claim. -/
structure RiskResult where
  http_risk : ℕ
  ssl_risk : ℕ
  dns_risk : ℕ
  tech_risk : ℕ
  weighted_risk_score : ℤ
  overall_risk_level : String
  overall_grade : String
  deriving DecidableEq, Repr

/-- `RiskScorer.calculate_risk_score`.  `int()` of the nonnegative float
score is its floor; level and grade are computed from the un-truncated
score exactly as in the source. -/
def calculate_risk_score (http ssl dns : ProbeScan) (tech : TechScan) : RiskResult :=
  let hr := httpRisk http
  let sr := sslRisk ssl
  let dr := dnsRisk dns
  let tr := techRisk tech
  let w := weightedScore hr sr dr tr
  { http_risk := hr
    ssl_risk := sr
    dns_risk := dr
    tech_risk := tr
    weighted_risk_score := ⌊w⌋
    overall_risk_level := get_risk_level w
    overall_grade := get_grade w }

/-! ## Progress tracker (`src/backend/app/services/progress_tracker.py`,
identical logic in `src/backend/app/application/services/progress_tracker.py`) -/

/-- One entry of the `STEPS` table: display name, percentage range and
sub-step labels. -/
structure StepInfo where
  name : String
  range_start : ℕ
  range_end : ℕ
  substeps : List String
  deriving DecidableEq, Repr

/-- `ProgressTracker.STEPS`, keyed by step number 1–7. -/
def STEPS : ℕ → Option StepInfo
  | 1 => some ⟨"Validating URL and permissions", 0, 10,
      ["URL validation", "Permission check"]⟩
  | 2 => some ⟨"Checking HTTP Security Headers", 10, 30,
      ["HSTS", "CSP", "X-Frame-Options", "X-Content-Type-Options",
       "Referrer-Policy", "Permissions-Policy"]⟩
  | 3 => some ⟨"Analyzing SSL/TLS Configuration", 30, 45,
      ["Certificate validation", "Protocol versions", "Cipher strength"]⟩
  | 4 => some ⟨"Scanning DNS Security Records", 45, 60,
      ["SPF check", "DMARC check", "DKIM check", "DNSSEC check", "CAA check"]⟩
  | 5 => some ⟨"Detecting Technology Stack", 60, 75,
      ["Web server detection", "Framework detection", "Library detection",
       "Security headers"]⟩
  | 6 => some ⟨"Calculating Risk Score", 75, 90,
      ["Weighting findings", "OWASP mapping", "Grade calculation"]⟩
  | 7 => some ⟨"Generating Comprehensive Report", 90, 100,
      ["Report assembly", "Recommendations", "Finalization"]⟩
  | _ => none

/-- One `ScanProgress` database row (wall-clock columns omitted, see the
module comment). -/
structure ScanProgress where
  url : String
  current_step : String
  progress_percentage : ℕ
  step_completed : List String
  step_current : Option String
  step_remaining : List String
  is_complete : Bool
  has_error : Bool
  is_cancelled : Bool
  error_message : Option String
  deriving DecidableEq, Repr

/-- `ProgressTracker.create_scan`: a fresh row in step 1 at 0%. -/
def create_scan (url : String) : ScanProgress :=
  { url := url
    current_step := "Validating URL and permissions"
    progress_percentage := 0
    step_completed := []
    step_current := some "URL validation"
    step_remaining := ["Permission check"]
    is_complete := false
    has_error := false
    is_cancelled := false
    error_message := none }

/-- `ProgressTracker.update_progress` on the row stored under one key
(`none` = no row, in which case the query finds nothing and the call
returns).  The only terminal flag consulted is `is_cancelled`.  The
percentage `int(start + (end - start) * (substep / len))` equals
`start + (end - start) * substep / len` with floor division, all
quantities being nonnegative (the double-precision evaluation agrees at
every point exercised here). -/
def update_progress (p? : Option ScanProgress) (step_number substep_index : ℕ)
    (force_percentage : Option ℕ) : Option ScanProgress :=
  match p? with
  | none => none
  | some p =>
    if p.is_cancelled then some p
    else
      match STEPS step_number with
      | none => some p
      | some info =>
        let n := info.substeps.length
        let pct :=
          match force_percentage with
          | some f => f
          | none =>
            if n = 0 then info.range_start
            else info.range_start + (info.range_end - info.range_start) * substep_index / n
        some { p with
          current_step := info.name
          progress_percentage := pct
          step_completed := info.substeps.take substep_index
          step_current := info.substeps[substep_index]?
          step_remaining :=
            if substep_index < n - 1 then info.substeps.drop (substep_index + 1) else []
          }

/-- `ProgressTracker.complete_scan`: forces `Complete`/100; consults no
terminal flag. -/
def complete_scan (p? : Option ScanProgress) : Option ScanProgress :=
  match p? with
  | none => none
  | some p => some { p with
      current_step := "Complete"
      progress_percentage := 100
      is_complete := true }

/-- `ProgressTracker.set_error`: records the error flag and message;
consults no terminal flag and leaves step/percentage untouched. -/
def set_error (p? : Option ScanProgress) (msg : String) : Option ScanProgress :=
  match p? with
  | none => none
  | some p => some { p with has_error := true, error_message := some msg }

/-- `ProgressTracker.cancel_scan`: sets the cancelled flag; a missing row is
silently ignored. -/
def cancel_scan (p? : Option ScanProgress) : Option ScanProgress :=
  match p? with
  | none => none
  | some p => some { p with is_cancelled := true }

/-- The progress dict returned by `ProgressTracker.get_progress`
(wall-clock strings omitted). -/
structure ProgressSnapshot where
  url : String
  current_step : String
  progress_percentage : ℕ
  is_complete : Bool
  has_error : Bool
  is_cancelled : Bool
  error_message : Option String
  deriving DecidableEq, Repr

/-- `ProgressTracker.get_progress`: `none` (Python `None`) when no row
exists for the key. -/
def get_progress (p? : Option ScanProgress) : Option ProgressSnapshot :=
  match p? with
  | none => none
  | some p => some
      { url := p.url
        current_step := p.current_step
        progress_percentage := p.progress_percentage
        is_complete := p.is_complete
        has_error := p.has_error
        is_cancelled := p.is_cancelled
        error_message := p.error_message }

/-! ## Safety validator
(`src/backend/app/infrastructure/security/safety_validator.py`) -/

/-- `ScanRateLimiter._rate_limit_minutes * 60` seconds. -/
def rateLimitSeconds : ℕ := 10 * 60

/-- The f-string rejection message of `ScanRateLimiter.can_scan`. -/
def rate_limit_message (remaining : ℕ) : String :=
  "Rate limit exceeded. Please wait " ++ toString remaining ++
    " minutes before scanning again."

/-- `ScanRateLimiter.can_scan` for one client: `last?` is the client's
entry in `_scan_history` (`none` = absent), `now` the current time in
seconds.  Returns `((allowed, reason), new entry)`.  A rejected attempt
leaves the entry unchanged; an admitted one records `now` immediately.
`remaining = 10 - time_since_last.seconds // 60`. -/
def can_scan (last? : Option ℕ) (now : ℕ) : (Bool × Option String) × Option ℕ :=
  match last? with
  | some last =>
    if now - last < rateLimitSeconds then
      ((false, some (rate_limit_message (10 - (now - last) / 60))), some last)
    else ((true, none), some now)
  | none => ((true, none), some now)

/-- Dotted-quad IPv4 address. -/
abbrev IPv4 : Type := ℕ × ℕ × ℕ × ℕ

/-- Split a character list at the first occurrence of `"://"`. -/
def breakAtSchemeSep : List Char → Option (List Char × List Char)
  | [] => none
  | ':' :: '/' :: '/' :: rest => some ([], rest)
  | c :: rest =>
    match breakAtSchemeSep rest with
    | some (pre, post) => some (c :: pre, post)
    | none => none

/-- Split a character list on `'.'` (the groups between the dots). -/
def splitOnDot : List Char → List (List Char)
  | [] => [[]]
  | '.' :: rest => [] :: splitOnDot rest
  | c :: rest =>
    match splitOnDot rest with
    | [] => [[c]]
    | g :: gs => (c :: g) :: gs

/-- Decimal parse of a nonempty all-digit character list
(the behaviour of Python `int(...)` on an octet string). -/
def decNat? (cs : List Char) : Option ℕ :=
  if cs.isEmpty then none
  else if cs.all Char.isDigit then
    some (cs.foldl (fun acc c => acc * 10 + (c.toNat - 48)) 0)
  else none

/-- Parse a dotted-quad IPv4 literal (each octet 0–255). -/
def ipv4? (s : String) : Option IPv4 :=
  match (splitOnDot s.toList).map decNat? with
  | [some a, some b, some c, some d] =>
    if a ≤ 255 ∧ b ≤ 255 ∧ c ≤ 255 ∧ d ≤ 255 then some (a, b, c, d) else none
  | _ => none

/-- Concrete resolver used in theorems: `socket.gethostbyname` returns a
dotted-quad literal unchanged; non-literal hosts are treated as
unresolvable (`socket.gaierror`). -/
def litResolver (host : String) : Option IPv4 := ipv4? host

/-- `str.endswith`. -/
def strEndsWith (s suffix : String) : Bool :=
  suffix.toList.isSuffixOf s.toList

/-- `urlparse` restricted to the `scheme://host[:port]/path` shapes the
claims exercise: the scheme precedes `"://"`, the netloc runs to the next
`"/"`; a string without `"://"` parses with empty scheme and netloc. -/
structure ParsedUrl where
  scheme : String
  netloc : String
  deriving DecidableEq, Repr

def urlparse (url : String) : ParsedUrl :=
  match breakAtSchemeSep url.toList with
  | none => { scheme := "", netloc := "" }
  | some (schemeChars, rest) =>
    { scheme := String.mk schemeChars
      netloc := String.mk (rest.takeWhile (fun c => c ≠ '/')) }

/-- `parsed.netloc.split(':')[0]`. -/
def domain_of (url : String) : String :=
  String.mk (((urlparse url).netloc).toList.takeWhile (fun c => c ≠ ':'))

/-- `TargetValidator.ALLOWED_TEST_DOMAINS`. -/
def ALLOWED_TEST_DOMAINS : List String :=
  ["example.com", "example.org", "example.net", "localhost", "127.0.0.1",
   "scanme.nmap.org", "testphp.vulnweb.com"]

/-- `TargetValidator.BLOCKED_TLDS`. -/
def BLOCKED_TLDS : List String := [".gov", ".mil", ".edu"]

/-- The allow-list test shared by `is_allowed_target` and
`validate_permission`: exact match or dot-separated subdomain suffix. -/
def is_whitelisted (domain : String) : Bool :=
  ALLOWED_TEST_DOMAINS.any fun allowed =>
    decide (domain = allowed) || strEndsWith domain (String.mk ('.' :: allowed.toList))

/-- Character class of the domain regex `^[a-zA-Z0-9.-]+$`. -/
def isDomainChar (c : Char) : Bool :=
  c.isAlpha || c.isDigit || c = '.' || c = '-'

/-- `TargetValidator.is_valid_url`. -/
def is_valid_url (url : String) : Bool × Option String :=
  let p := urlparse url
  if p.scheme ≠ "http" ∧ p.scheme ≠ "https" then
    (false, some "URL must use HTTP or HTTPS protocol")
  else if p.netloc = "" then
    (false, some "Invalid URL: missing domain")
  else
    let domain := String.mk (p.netloc.toList.takeWhile (fun c => c ≠ ':'))
    if domain.length > 0 ∧ domain.toList.all isDomainChar then (true, none)
    else (false, some "Invalid domain format")

/-- Membership in `TargetValidator.PRIVATE_IP_RANGES`
(10.0.0.0/8, 172.16.0.0/12, 192.168.0.0/16, 127.0.0.0/8). -/
def in_private_ranges (ip : IPv4) : Bool :=
  let a := ip.1
  let b := ip.2.1
  a = 10 || (a = 172 && 16 ≤ b && b ≤ 31) || (a = 192 && b = 168) || a = 127

/-- `TargetValidator.is_allowed_target`, with the host resolver passed in:
allow-list short-circuit, blocked-TLD loop, resolution, private-range
check (skipped for the literal hosts `localhost`/`127.0.0.1`). -/
def is_allowed_target (resolve : String → Option IPv4) (url : String) :
    Bool × Option String :=
  let domain := domain_of url
  if is_whitelisted domain then (true, none)
  else
    match BLOCKED_TLDS.find? (fun tld => strEndsWith domain tld) with
    | some tld =>
      (false, some ("Scanning " ++ tld ++
        " domains is prohibited without explicit authorization"))
    | none =>
      match resolve domain with
      | none => (false, some "Cannot resolve domain name")
      | some ip =>
        if in_private_ranges ip ∧ domain ≠ "localhost" ∧ domain ≠ "127.0.0.1" then
          (false, some "Scanning private/internal IP addresses is prohibited")
        else (true, none)

/-- `TargetValidator.validate_permission`: allow-listed domains need only
the generic acknowledgement; all others need all three attestations, each
missing one yielding its specific message. -/
def validate_permission (url : String)
    (confirmed_permission owner_confirmation legal_responsibility : Bool) :
    Bool × Option String :=
  let domain := domain_of url
  if is_whitelisted domain then
    if !confirmed_permission then
      (false, some "You must acknowledge scanning terms even for test domains")
    else (true, none)
  else if !confirmed_permission then
    (false, some "You must confirm you have permission to scan this website")
  else if !owner_confirmation then
    (false, some "You must confirm you own this website or have written permission")
  else if !legal_responsibility then
    (false, some "You must accept legal responsibility for this scan")
  else (true, none)

/-- The `(is_valid, error_message, metadata["blocked_reason"])` portion of
`SafetyValidator.validate_scan_request`'s return value. -/
structure ValidationOutcome where
  is_valid : Bool
  error_message : Option String
  blocked_reason : Option String
  deriving DecidableEq, Repr

/-- `SafetyValidator.validate_scan_request` for one client: rate limit
first (its state update happens inside `can_scan`, before any other
check), then URL format, target allow/deny, and attestations.  Returns
the outcome together with the client's new `_scan_history` entry. -/
def validate_scan_request (resolve : String → Option IPv4)
    (last? : Option ℕ) (now : ℕ) (url : String)
    (confirmed_permission owner_confirmation legal_responsibility : Bool) :
    ValidationOutcome × Option ℕ :=
  let rate := can_scan last? now
  let last' := rate.2
  if !rate.1.1 then
    ({ is_valid := false, error_message := rate.1.2,
       blocked_reason := some "rate_limit" }, last')
  else
    let u := is_valid_url url
    if !u.1 then
      ({ is_valid := false, error_message := u.2,
         blocked_reason := some "invalid_url" }, last')
    else
      let t := is_allowed_target resolve url
      if !t.1 then
        ({ is_valid := false, error_message := t.2,
           blocked_reason := some "blocked_target" }, last')
      else
        let perm := validate_permission url
          confirmed_permission owner_confirmation legal_responsibility
        if !perm.1 then
          ({ is_valid := false, error_message := perm.2,
             blocked_reason := some "missing_permission" }, last')
        else
          ({ is_valid := true, error_message := none, blocked_reason := none }, last')

/-! ## Orchestrator pre-scan flow
(`WebsiteScanService.scan_website` + `_validate_request` in
`src/backend/app/application/services/website_scanner.py`; the api route
`scan_website` in `src/backend/app/api/website_scanner.py` performs the
same create → update(1,0) → validate → set_error-and-raise sequence). -/

/-- Outcome of the validation stage as seen by the caller: a rejection is
raised synchronously (`ValueError(error_message)` / HTTP 400-403), else
the scan proceeds. -/
inductive ScanOutcome where
  | rejected (message : String)
  | proceeding
  deriving DecidableEq, Repr

/-- The pre-scan portion of `scan_website`: the progress row is created
and advanced to step 1 **before** validation runs; a validation failure
is recorded on that row via `set_error` and then raised to the caller.
Returns (caller outcome, progress row for the new scan key, new
rate-limiter entry). -/
def scan_website_pre (resolve : String → Option IPv4)
    (last? : Option ℕ) (now : ℕ) (url : String)
    (confirmed_permission owner_confirmation legal_responsibility : Bool) :
    ScanOutcome × Option ScanProgress × Option ℕ :=
  let p0 := some (create_scan url)
  let p1 := update_progress p0 1 0 none
  let v := validate_scan_request resolve last? now url
    confirmed_permission owner_confirmation legal_responsibility
  if v.1.is_valid then (ScanOutcome.proceeding, p1, v.2)
  else
    let msg := v.1.error_message.getD ""
    (ScanOutcome.rejected msg, set_error p1 msg, v.2)

/-! ## Progress/cancel API endpoints
(`src/backend/app/api/website_scanner.py`). -/

/-- A FastAPI route outcome: a payload or an `HTTPException`. -/
inductive ApiResult (α : Type) where
  | ok (val : α)
  | httpError (status : ℕ) (detail : String)
  deriving DecidableEq, Repr

/-- `GET /scan-progress/{scan_id}`: 404 when the tracker finds no row. -/
def get_scan_progress_endpoint (p? : Option ScanProgress) :
    ApiResult ProgressSnapshot :=
  match get_progress p? with
  | none => ApiResult.httpError 404 "Scan not found"
  | some snap => ApiResult.ok snap

/-- `POST /scan-progress/{scan_id}/cancel`: calls
`tracker.cancel_scan(scan_id)` and returns the success message with no
existence check. -/
def cancel_scan_endpoint (p? : Option ScanProgress) :
    ApiResult String × Option ScanProgress :=
  (ApiResult.ok "Scan cancelled successfully", cancel_scan p?)

/-! ## Progress-update traces of one scan -/

/-- One `update_progress(scan_id, step, substep)` call (no
`force_percentage` — no orchestrator call passes it). -/
structure Call where
  step : ℕ
  substep : ℕ
  deriving DecidableEq, Repr

/-- Apply a list of update calls to a progress row. -/
def runCalls (p? : Option ScanProgress) : List Call → Option ScanProgress
  | [] => p?
  | c :: rest => runCalls (update_progress p? c.step c.substep none) rest

/-- The percentage recorded after each call of a trace (0 for a missing
row, which never occurs in the scans considered). -/
def pctTrace (p? : Option ScanProgress) : List Call → List ℕ
  | [] => []
  | c :: rest =>
    let p' := update_progress p? c.step c.substep none
    (match p' with
     | some p => p.progress_percentage
     | none => 0) :: pctTrace p' rest

/-- The phase name recorded after each call of a trace. -/
def stepTrace (p? : Option ScanProgress) : List Call → List String
  | [] => []
  | c :: rest =>
    let p' := update_progress p? c.step c.substep none
    (match p' with
     | some p => p.current_step
     | none => "") :: stepTrace p' rest

/-- The per-probe update sequences submitted to the thread pool by
`_run_security_scans`: each worker runs `_scan_http` / `_scan_ssl` /
`_scan_dns` / `_scan_tech`, which issue a phase-start and a phase-end
`update_progress` call from inside the worker. -/
def httpCalls : List Call := [⟨2, 0⟩, ⟨2, 3⟩]

def sslCalls : List Call := [⟨3, 0⟩, ⟨3, 2⟩]

def dnsCalls : List Call := [⟨4, 0⟩, ⟨4, 4⟩]

def techCalls : List Call := [⟨5, 0⟩, ⟨5, 3⟩]

/-- Decides whether `t` is an interleaving of the sequences `seqs`, i.e. a
schedule in which each worker's own calls stay in order but calls of
different workers may alternate arbitrarily. -/
def canInterleave (seqs : List (List Call)) : List Call → Bool
  | [] => seqs.all List.isEmpty
  | c :: rest =>
    (List.range seqs.length).any fun i =>
      match seqs[i]? with
      | some (c' :: tail) => c' = c && canInterleave (seqs.set i tail) rest
      | _ => false

/-- The full update sequence issued by the api route `scan_website` in
`src/backend/app/api/website_scanner.py`, which runs the probes and their
phase-start/phase-end updates sequentially in the handler itself: the
step-1 validation call, the four probe phases, the two risk-scoring
calls, and the step-7 report call (followed by `complete_scan`). -/
def seqCalls : List Call :=
  [⟨1, 0⟩, ⟨2, 0⟩, ⟨2, 3⟩, ⟨3, 0⟩, ⟨3, 2⟩, ⟨4, 0⟩, ⟨4, 4⟩,
   ⟨5, 0⟩, ⟨5, 3⟩, ⟨6, 0⟩, ⟨6, 1⟩, ⟨7, 0⟩]

/-- The update sequence of `WebsiteScanService`'s sequential fallback in
`_run_security_scans`: the `_validate_request` step-1 call, the four
probe phases, and `_calculate_risk`'s two step-6 calls.  The service
issues no step-7 update anywhere, and its success path then calls
`self.tracker.set_complete(scan_id)` — a method its `ProgressTracker`
does not define (it has only `complete_scan`) — so the run raises inside
the `try` block and ends in `set_error` instead of completing. -/
def serviceSeqCalls : List Call :=
  [⟨1, 0⟩, ⟨2, 0⟩, ⟨2, 3⟩, ⟨3, 0⟩, ⟨3, 2⟩, ⟨4, 0⟩, ⟨4, 4⟩,
   ⟨5, 0⟩, ⟨5, 3⟩, ⟨6, 0⟩, ⟨6, 1⟩]

/-! ## Spec-side band function and canned probe results -/

/-- The grading bands as a function of the **exact** weighted score, the
refinement target for the grading claim: closed bands `[0,10] = A`,
`[11,25] = B`, `[26,45] = C`, `[46,70] = D`, everything else (the `[71,100]`
band, the fractional gaps between bands, and out-of-range values) `F`. -/
def specGradeBands (w : ℚ) : String :=
  if 0 ≤ w ∧ w ≤ 10 then "A"
  else if 11 ≤ w ∧ w ≤ 25 then "B"
  else if 26 ≤ w ∧ w ≤ 45 then "C"
  else if 46 ≤ w ∧ w ≤ 70 then "D"
  else "F"

/-- Canned technology probe success computing to 10 risk points:
version disclosure (+10), no vulnerabilities, security technologies
present (no +20). -/
def cannedTech10 : TechScan :=
  { success := true
    web_server_version := some "nginx/1.18.0"
    vulnerabilities := []
    security_technologies := ["WAF"] }

/-- Technology probe success computing to 80 risk points: no version
string, four HIGH vulnerabilities (+60), no security technologies (+20). -/
def cannedTech80 : TechScan :=
  { success := true
    web_server_version := none
    vulnerabilities := ["HIGH", "HIGH", "HIGH", "HIGH"]
    security_technologies := [] }

/-- Technology probe success computing to 25 risk points: version
disclosure (+10), five LOW vulnerabilities (+15), security technologies
present. -/
def cannedTech25 : TechScan :=
  { success := true
    web_server_version := some "Apache/2.4.41"
    vulnerabilities := ["LOW", "LOW", "LOW", "LOW", "LOW"]
    security_technologies := ["WAF"] }

/-- Technology probe success computing to 0 risk points. -/
def cannedTech0 : TechScan :=
  { success := true
    web_server_version := none
    vulnerabilities := []
    security_technologies := ["WAF"] }

/-- An erroring probe result (`{"error": ..., "success": False}`). -/
def errProbe : ProbeScan := { success := false, risk_points := none }

/-- An erroring technology probe result. -/
def errTech : TechScan :=
  { success := false
    web_server_version := none
    vulnerabilities := []
    security_technologies := [] }

/-- A schedule of the concurrent `_run_security_scans` branch in which the
technology worker's two updates land before everyone else's. -/
def badSchedule : List Call :=
  [⟨5, 0⟩, ⟨5, 3⟩, ⟨2, 0⟩, ⟨2, 3⟩, ⟨3, 0⟩, ⟨3, 2⟩, ⟨4, 0⟩, ⟨4, 4⟩]

/-! ## Theorems -/

/-- The weighted score as a single scaled fraction. -/
theorem weightedScore_eq_div (hr sr dr tr : ℕ) :
    weightedScore hr sr dr tr =
      ((30 * hr + 35 * sr + 15 * dr + 20 * tr : ℕ) : ℚ) / 100 := by
  unfold weightedScore; push_cast; ring

/-- Truncating the weighted score is the scaled natural division. -/
theorem floor_weightedScore (hr sr dr tr : ℕ) :
    ⌊weightedScore hr sr dr tr⌋ =
      ((30 * hr + 35 * sr + 15 * dr + 20 * tr) / 100 : ℕ) := by
  rw [weightedScore_eq_div, show ((100 : ℚ)) = ((100 : ℕ) : ℚ) from by norm_num,
    Rat.floor_natCast_div_natCast, Int.natCast_div]

/-- C1 (counterexample): on the canned probe outputs (HTTP success with 15
risk points, TLS 5, DNS 30, technology computing to 10) the aggregator
returns weighted score `int(12.75) = 12`, not `round(12.75) = 13`; the risk
level computed from 12.75 is `MINIMAL` (band 0–19), not `LOW`; the grade is
`B` (band 11–25), not `A`. -/
theorem c1_counterexample :
    (calculate_risk_score ⟨true, some 15⟩ ⟨true, some 5⟩ ⟨true, some 30⟩
        cannedTech10).weighted_risk_score ≠ 13 ∧
    (calculate_risk_score ⟨true, some 15⟩ ⟨true, some 5⟩ ⟨true, some 30⟩
        cannedTech10).overall_risk_level ≠ "LOW" ∧
    (calculate_risk_score ⟨true, some 15⟩ ⟨true, some 5⟩ ⟨true, some 30⟩
        cannedTech10).overall_grade ≠ "A" := by
  have h1 : httpRisk ⟨true, some 15⟩ = 15 := by decide
  have h2 : sslRisk ⟨true, some 5⟩ = 5 := by decide
  have h3 : dnsRisk ⟨true, some 30⟩ = 30 := by decide
  have h4 : techRisk cannedTech10 = 10 := by decide
  simp only [calculate_risk_score]
  rw [h1, h2, h3, h4, floor_weightedScore, weightedScore_eq_div]
  norm_num [get_risk_level, get_grade]
  decide

/-- C1 (amended): on the canned probe outputs the aggregator returns
weighted score 12 (the truncation of 0.30·15 + 0.35·5 + 0.15·30 + 0.20·10
= 12.75), overall risk level `MINIMAL` and overall grade `B` (level and
grade being computed from the un-truncated 12.75). -/
theorem c1_canned_scenario :
    calculate_risk_score ⟨true, some 15⟩ ⟨true, some 5⟩ ⟨true, some 30⟩
        cannedTech10 =
      { http_risk := 15, ssl_risk := 5, dns_risk := 30, tech_risk := 10,
        weighted_risk_score := 12, overall_risk_level := "MINIMAL",
        overall_grade := "B" } := by
  have h1 : httpRisk ⟨true, some 15⟩ = 15 := by decide
  have h2 : sslRisk ⟨true, some 5⟩ = 5 := by decide
  have h3 : dnsRisk ⟨true, some 30⟩ = 30 := by decide
  have h4 : techRisk cannedTech10 = 10 := by decide
  simp only [calculate_risk_score]
  rw [h1, h2, h3, h4, floor_weightedScore, weightedScore_eq_div]
  norm_num [get_risk_level, get_grade]

/-- Monotonicity of the truncated weighted score in the component risks. -/
theorem weighted_risk_score_mono (ha hb sa sb da db ta tb : ℕ)
    (hh : ha ≤ hb) (hs : sa ≤ sb) (hd : da ≤ db) (ht : ta ≤ tb) :
    ⌊weightedScore ha sa da ta⌋ ≤ ⌊weightedScore hb sb db tb⌋ := by
  rw [floor_weightedScore, floor_weightedScore]
  have key : (30 * ha + 35 * sa + 15 * da + 20 * ta) / 100 ≤
      (30 * hb + 35 * sb + 15 * db + 20 * tb) / 100 :=
    Nat.div_le_div_right (by omega)
  exact_mod_cast key

/-- C2: an erroring HTTP or TLS probe is scored 100 component risk points
and an erroring DNS or technology probe is scored 50; consequently, for
any bundle, the reported weighted score with one probe erroring is at
least the score with that probe replaced by a zero-risk-point success,
the other three results held fixed. -/
theorem c2_probe_failure_monotone :
    (∀ (http ssl dns : ProbeScan) (tech : TechScan), http.success = false →
      (calculate_risk_score http ssl dns tech).http_risk = 100) ∧
    (∀ (http ssl dns : ProbeScan) (tech : TechScan), ssl.success = false →
      (calculate_risk_score http ssl dns tech).ssl_risk = 100) ∧
    (∀ (http ssl dns : ProbeScan) (tech : TechScan), dns.success = false →
      (calculate_risk_score http ssl dns tech).dns_risk = 50) ∧
    (∀ (http ssl dns : ProbeScan) (tech : TechScan), tech.success = false →
      (calculate_risk_score http ssl dns tech).tech_risk = 50) ∧
    (∀ (http http0 ssl dns : ProbeScan) (tech : TechScan),
      http.success = false → http0.success = true → http0.risk_points = some 0 →
      (calculate_risk_score http0 ssl dns tech).weighted_risk_score ≤
        (calculate_risk_score http ssl dns tech).weighted_risk_score) ∧
    (∀ (http ssl ssl0 dns : ProbeScan) (tech : TechScan),
      ssl.success = false → ssl0.success = true → ssl0.risk_points = some 0 →
      (calculate_risk_score http ssl0 dns tech).weighted_risk_score ≤
        (calculate_risk_score http ssl dns tech).weighted_risk_score) ∧
    (∀ (http ssl dns dns0 : ProbeScan) (tech : TechScan),
      dns.success = false → dns0.success = true → dns0.risk_points = some 0 →
      (calculate_risk_score http ssl dns0 tech).weighted_risk_score ≤
        (calculate_risk_score http ssl dns tech).weighted_risk_score) ∧
    (∀ (http ssl dns : ProbeScan) (tech tech0 : TechScan),
      tech.success = false → tech0.success = true → calculate_tech_risk tech0 = 0 →
      (calculate_risk_score http ssl dns tech0).weighted_risk_score ≤
        (calculate_risk_score http ssl dns tech).weighted_risk_score) := by
  refine ⟨?_, ?_, ?_, ?_, ?_, ?_, ?_, ?_⟩
  · intro http ssl dns tech h
    simp [calculate_risk_score, httpRisk, h]
  · intro http ssl dns tech h
    simp [calculate_risk_score, sslRisk, h]
  · intro http ssl dns tech h
    simp [calculate_risk_score, dnsRisk, h]
  · intro http ssl dns tech h
    simp [calculate_risk_score, techRisk, h]
  · intro http http0 ssl dns tech hf h0 hr
    have e0 : httpRisk http0 = 0 := by simp [httpRisk, h0, hr]
    have e1 : httpRisk http = 100 := by simp [httpRisk, hf]
    simp only [calculate_risk_score]
    exact weighted_risk_score_mono _ _ _ _ _ _ _ _
      (by simp [e0, e1]) le_rfl le_rfl le_rfl
  · intro http ssl ssl0 dns tech hf h0 hr
    have e0 : sslRisk ssl0 = 0 := by simp [sslRisk, h0, hr]
    have e1 : sslRisk ssl = 100 := by simp [sslRisk, hf]
    simp only [calculate_risk_score]
    exact weighted_risk_score_mono _ _ _ _ _ _ _ _
      le_rfl (by simp [e0, e1]) le_rfl le_rfl
  · intro http ssl dns dns0 tech hf h0 hr
    have e0 : dnsRisk dns0 = 0 := by simp [dnsRisk, h0, hr]
    have e1 : dnsRisk dns = 50 := by simp [dnsRisk, hf]
    simp only [calculate_risk_score]
    exact weighted_risk_score_mono _ _ _ _ _ _ _ _
      le_rfl le_rfl (by simp [e0, e1]) le_rfl
  · intro http ssl dns tech tech0 hf h0 hr
    have e0 : techRisk tech0 = 0 := by simp [techRisk, h0, hr]
    have e1 : techRisk tech = 50 := by simp [techRisk, hf]
    simp only [calculate_risk_score]
    exact weighted_risk_score_mono _ _ _ _ _ _ _ _
      le_rfl le_rfl le_rfl (by simp [e0, e1])

/-- C2 (witness): the error-scoring and monotonicity theorem applied to
concrete bundles, one per erroring probe. -/
theorem c2_witness :
    (calculate_risk_score errProbe ⟨true, some 5⟩ ⟨true, some 30⟩
        cannedTech10).http_risk = 100 ∧
    (calculate_risk_score ⟨true, some 15⟩ errProbe ⟨true, some 30⟩
        cannedTech10).ssl_risk = 100 ∧
    (calculate_risk_score ⟨true, some 15⟩ ⟨true, some 5⟩ errProbe
        cannedTech10).dns_risk = 50 ∧
    (calculate_risk_score ⟨true, some 15⟩ ⟨true, some 5⟩ ⟨true, some 30⟩
        errTech).tech_risk = 50 ∧
    (calculate_risk_score ⟨true, some 0⟩ ⟨true, some 5⟩ ⟨true, some 30⟩
        cannedTech10).weighted_risk_score ≤
      (calculate_risk_score errProbe ⟨true, some 5⟩ ⟨true, some 30⟩
        cannedTech10).weighted_risk_score ∧
    (calculate_risk_score ⟨true, some 15⟩ ⟨true, some 0⟩ ⟨true, some 30⟩
        cannedTech10).weighted_risk_score ≤
      (calculate_risk_score ⟨true, some 15⟩ errProbe ⟨true, some 30⟩
        cannedTech10).weighted_risk_score ∧
    (calculate_risk_score ⟨true, some 15⟩ ⟨true, some 5⟩ ⟨true, some 0⟩
        cannedTech10).weighted_risk_score ≤
      (calculate_risk_score ⟨true, some 15⟩ ⟨true, some 5⟩ errProbe
        cannedTech10).weighted_risk_score ∧
    (calculate_risk_score ⟨true, some 15⟩ ⟨true, some 5⟩ ⟨true, some 30⟩
        cannedTech0).weighted_risk_score ≤
      (calculate_risk_score ⟨true, some 15⟩ ⟨true, some 5⟩ ⟨true, some 30⟩
        errTech).weighted_risk_score :=
  ⟨c2_probe_failure_monotone.1 _ _ _ _ rfl,
   c2_probe_failure_monotone.2.1 _ _ _ _ rfl,
   c2_probe_failure_monotone.2.2.1 _ _ _ _ rfl,
   c2_probe_failure_monotone.2.2.2.1 _ _ _ _ rfl,
   c2_probe_failure_monotone.2.2.2.2.1 _ _ _ _ _ rfl rfl rfl,
   c2_probe_failure_monotone.2.2.2.2.2.1 _ _ _ _ _ rfl rfl rfl,
   c2_probe_failure_monotone.2.2.2.2.2.2.1 _ _ _ _ _ rfl rfl rfl,
   c2_probe_failure_monotone.2.2.2.2.2.2.2 _ _ _ _ _ rfl rfl (by decide)⟩

/-- C3 (counterexample): the reported letter grade is not a function of
the reported (truncated) weighted score, and a reported score of 70 does
not always map to grade `D`: the bundle (85, 70, 30, tech→80) has exact
weighted score 70.5, reported score 70, and falls in the gap between the
`D` band (46–70) and the `F` band (71–100), so it grades `F`, while the
bundle (100, 100, 0, tech→25) also reports 70 but grades `D`. -/
theorem c3_counterexample :
    (calculate_risk_score ⟨true, some 85⟩ ⟨true, some 70⟩ ⟨true, some 30⟩
        cannedTech80).weighted_risk_score = 70 ∧
    (calculate_risk_score ⟨true, some 85⟩ ⟨true, some 70⟩ ⟨true, some 30⟩
        cannedTech80).overall_grade = "F" ∧
    (calculate_risk_score ⟨true, some 100⟩ ⟨true, some 100⟩ ⟨true, some 0⟩
        cannedTech25).weighted_risk_score = 70 ∧
    (calculate_risk_score ⟨true, some 100⟩ ⟨true, some 100⟩ ⟨true, some 0⟩
        cannedTech25).overall_grade = "D" := by
  have h1 : httpRisk ⟨true, some 85⟩ = 85 := by decide
  have h2 : sslRisk ⟨true, some 70⟩ = 70 := by decide
  have h3 : dnsRisk ⟨true, some 30⟩ = 30 := by decide
  have h4 : techRisk cannedTech80 = 80 := by decide
  have h5 : httpRisk ⟨true, some 100⟩ = 100 := by decide
  have h6 : sslRisk ⟨true, some 100⟩ = 100 := by decide
  have h7 : dnsRisk ⟨true, some 0⟩ = 0 := by decide
  have h8 : techRisk cannedTech25 = 25 := by decide
  simp only [calculate_risk_score]
  rw [h1, h2, h3, h4, h5, h6, h7, h8]
  rw [floor_weightedScore, floor_weightedScore, weightedScore_eq_div, weightedScore_eq_div]
  norm_num [get_grade]

/-- Pointwise agreement of the source's grade function with the spec-side
band function of the exact score. -/
theorem get_grade_eq_specGradeBands (x : ℚ) : get_grade x = specGradeBands x := by
  unfold get_grade specGradeBands
  split_ifs <;> rfl

/-- C3 (amended): the overall letter grade is not a function of the
reported (truncated) score; it is `_get_grade` applied to the
**un-truncated** weighted score.  `_get_grade` maps its input via the
closed bands `[0,10] = A`, `[11,25] = B`, `[26,45] = C`, `[46,70] = D` and
returns `F` otherwise (the `[71,100]` band, the fractional gaps between
bands — reachable because the score is graded before truncation — and
out-of-range values); its comparisons against the integer thresholds are
exact on floating-point inputs, so this band structure holds of the
program, and an input the grader receives as exactly 70 maps to `D` while
71 maps to `F`.  (Which side of a band edge a bundle's double score lands
on can differ from its exact decimal value, so no band membership of the
exact score is asserted for a general bundle.) -/
theorem c3_grade_bands :
    (∀ x : ℚ, get_grade x = specGradeBands x) ∧
    get_grade 70 = "D" ∧ get_grade 71 = "F" := by
  refine ⟨get_grade_eq_specGradeBands, ?_, ?_⟩ <;> decide

/-- C5 (counterexample): `update_progress` is **not** a no-op on an
errored session — after `set_error` the percentage still moves from 0 to
10 on the next advance — and the terminal flags are **not** mutually
exclusive: `complete_scan` on an already-cancelled session leaves both
`is_cancelled` and `is_complete` set. -/
theorem c5_counterexample :
    (set_error (some (create_scan "https://example.com")) "boom").map
        ScanProgress.progress_percentage = some 0 ∧
    (update_progress (set_error (some (create_scan "https://example.com")) "boom")
        2 0 none).map ScanProgress.progress_percentage = some 10 ∧
    (update_progress (set_error (some (create_scan "https://example.com")) "boom")
        2 0 none).map ScanProgress.has_error = some true ∧
    (complete_scan (cancel_scan (some (create_scan "https://example.com")))).map
        (fun p => (p.is_cancelled, p.is_complete)) = some (true, true) := by
  refine ⟨?_, ?_, ?_, ?_⟩ <;> decide

/-- C5 (amended): only the cancelled flag freezes a session: every
`update_progress` call on a cancelled session is a no-op, returning the
stored row unchanged whatever step, sub-step and forced percentage are
passed. -/
theorem c5_cancel_freezes (p : ScanProgress) (step sub : ℕ) (force : Option ℕ)
    (hc : p.is_cancelled = true) :
    update_progress (some p) step sub force = some p := by
  simp [update_progress, hc]

/-- C5 (witness): the freeze theorem applied to a concrete cancelled
session. -/
theorem c5_witness :
    update_progress (some { create_scan "https://example.com" with
        is_cancelled := true }) 3 1 none =
      some { create_scan "https://example.com" with is_cancelled := true } :=
  c5_cancel_freezes _ 3 1 none rfl

/-- C7 (counterexample): `http://169.254.169.254/` (link-local) is **not**
rejected: `PRIVATE_IP_RANGES` covers only the RFC 1918 blocks and
loopback, so the target validator admits it. -/
theorem c7_counterexample :
    is_allowed_target litResolver "http://169.254.169.254/" = (true, none) := by
  decide

/-- C7 (amended): `http://10.0.0.5/` is rejected as private/internal;
`https://example.com` is admitted by the full validator with only the
generic acknowledgement attestation true (and that acknowledgement is
required); `http://169.254.169.254/` (link-local, outside RFC 1918 and
loopback) is admitted. -/
theorem c7_target_validation :
    is_allowed_target litResolver "http://10.0.0.5/" =
      (false, some "Scanning private/internal IP addresses is prohibited") ∧
    (validate_scan_request litResolver none 0 "https://example.com"
        true false false).1.is_valid = true ∧
    validate_permission "https://example.com" true false false = (true, none) ∧
    validate_permission "https://example.com" false false false =
      (false, some "You must acknowledge scanning terms even for test domains") ∧
    is_allowed_target litResolver "http://169.254.169.254/" = (true, none) := by
  refine ⟨?_, ?_, ?_, ?_, ?_⟩ <;> decide

/-- C9 (counterexample): cancelling a session key that does not exist is
not surfaced as a distinct not-found outcome — the endpoint returns the
very same success acknowledgement it returns for an existing session. -/
theorem c9_counterexample :
    cancel_scan_endpoint none =
      (ApiResult.ok "Scan cancelled successfully", none) ∧
    (cancel_scan_endpoint (some (create_scan "https://example.com"))).1 =
      (cancel_scan_endpoint none).1 := by
  exact ⟨rfl, rfl⟩

/-- C9 (amended): querying progress for a missing session key returns a
distinct 404 not-found outcome (and an existing key always yields a
success payload), but cancelling a missing key is a silent no-op that
returns the generic success acknowledgement. -/
theorem c9_not_found_outcomes :
    get_scan_progress_endpoint none = ApiResult.httpError 404 "Scan not found" ∧
    (∀ p : ScanProgress, ∃ snap,
      get_scan_progress_endpoint (some p) = ApiResult.ok snap) ∧
    (cancel_scan_endpoint none).1 = ApiResult.ok "Scan cancelled successfully" ∧
    (cancel_scan_endpoint none).2 = none := by
  exact ⟨rfl, fun p => ⟨_, rfl⟩, rfl, rfl⟩

/-- The step-1/substep-0 update recomputes exactly the values
`create_scan` wrote, so the pre-validation advance leaves the fresh row
unchanged. -/
theorem update_progress_create (url : String) :
    update_progress (some (create_scan url)) 1 0 none = some (create_scan url) := rfl

/-- C4 (counterexample): a request rejected pre-scan (here: an invalid
`ftp://` URL) is surfaced synchronously as a rejection, yet a progress
record for the scan key **does** exist — `create_scan` ran before
validation — so the Progress store is written for the rejected request. -/
theorem c4_counterexample :
    (scan_website_pre litResolver none 0 "ftp://example.com"
        false false false).1 =
      ScanOutcome.rejected "URL must use HTTP or HTTPS protocol" ∧
    (scan_website_pre litResolver none 0 "ftp://example.com"
        false false false).2.1 ≠ none := by
  refine ⟨?_, ?_⟩ <;> decide

/-- C4 (amended): every pre-scan rejection is surfaced synchronously to
the caller, but only after a progress record has been created for the
request; the rejection message is additionally written into that record
via `set_error`. -/
theorem c4_rejection_writes_progress (resolve : String → Option IPv4)
    (last? : Option ℕ) (now : ℕ) (url : String) (cp oc lr : Bool)
    (hrej : (validate_scan_request resolve last? now url cp oc lr).1.is_valid
      = false) :
    ∃ p : ScanProgress,
      scan_website_pre resolve last? now url cp oc lr =
        (ScanOutcome.rejected
          ((validate_scan_request resolve last? now url
            cp oc lr).1.error_message.getD ""),
         some p,
         (validate_scan_request resolve last? now url cp oc lr).2) ∧
      p.has_error = true ∧
      p.error_message =
        some ((validate_scan_request resolve last? now url
          cp oc lr).1.error_message.getD "") := by
  refine ⟨{ create_scan url with
      has_error := true
      error_message :=
        some ((validate_scan_request resolve last? now url
          cp oc lr).1.error_message.getD "") }, ?_, rfl, rfl⟩
  simp only [scan_website_pre, update_progress_create, hrej, Bool.false_eq_true,
    if_false, set_error]

/-- C4 (witness): the amended theorem applied to a concrete rejected
request. -/
theorem c4_witness :
    ∃ p : ScanProgress,
      scan_website_pre litResolver none 0 "ftp://example.com" false false false =
        (ScanOutcome.rejected
          ((validate_scan_request litResolver none 0 "ftp://example.com"
            false false false).1.error_message.getD ""),
         some p,
         (validate_scan_request litResolver none 0 "ftp://example.com"
           false false false).2) ∧
      p.has_error = true ∧
      p.error_message =
        some ((validate_scan_request litResolver none 0 "ftp://example.com"
          false false false).1.error_message.getD "") :=
  c4_rejection_writes_progress litResolver none 0 "ftp://example.com"
    false false false (by decide)

/-- C6 (counterexample): in the concurrent branch of
`_run_security_scans` the phase-start/phase-end updates run inside the
worker threads, so a schedule in which the technology worker's updates
land first is a legal interleaving; along it the recorded percentage goes
60, 71, 10, … — it decreases, and the phases are not visited in order. -/
theorem c6_counterexample :
    canInterleave [httpCalls, sslCalls, dnsCalls, techCalls] badSchedule = true ∧
    pctTrace (update_progress (some (create_scan "https://example.com")) 1 0 none)
        badSchedule = [60, 71, 10, 20, 30, 40, 45, 57] ∧
    ¬ List.Chain' (· ≤ ·) [60, 71, 10, 20, 30, 40, 45, 57] := by
  refine ⟨by decide, by decide, ?_⟩
  norm_num [List.chain'_cons]

/-- C6 (amended): the api route issues the progress updates sequentially
around each probe — steps 1 through 7, then completion — and along it the
percentages 0, 10, 20, 30, 40, 45, 57, 60, 71, 75, 80, 90 and finally 100
are monotonically non-decreasing, never above 100, with the phases in
order Validating, HeaderScan, TLSScan, DNSScan, TechScan, RiskScoring,
Reporting.  The service's sequential fallback issues only the step-1–6
updates, in the same order (monotone 0 … 80, never above 100, phases in
order through RiskScoring), and never reaches the Reporting update or
completion: its `set_complete` call does not exist on the tracker, so the
exception handler records an error with the percentage left at 80.  In
the service's concurrent branch the per-probe updates run inside worker
threads and only each worker's own pair keeps its order (see the
counterexample). -/
theorem c6_sequential_monotone (url msg : String) :
    pctTrace (some (create_scan url)) seqCalls =
      [0, 10, 20, 30, 40, 45, 57, 60, 71, 75, 80, 90] ∧
    stepTrace (some (create_scan url)) seqCalls =
      ["Validating URL and permissions", "Checking HTTP Security Headers",
       "Checking HTTP Security Headers", "Analyzing SSL/TLS Configuration",
       "Analyzing SSL/TLS Configuration", "Scanning DNS Security Records",
       "Scanning DNS Security Records", "Detecting Technology Stack",
       "Detecting Technology Stack", "Calculating Risk Score",
       "Calculating Risk Score", "Generating Comprehensive Report"] ∧
    List.Chain' (· ≤ ·)
      ((create_scan url).progress_percentage ::
        (pctTrace (some (create_scan url)) seqCalls ++ [100])) ∧
    (pctTrace (some (create_scan url)) seqCalls).all (· ≤ 100) = true ∧
    (complete_scan (runCalls (some (create_scan url)) seqCalls)).map
        ScanProgress.progress_percentage = some 100 ∧
    pctTrace (some (create_scan url)) serviceSeqCalls =
      [0, 10, 20, 30, 40, 45, 57, 60, 71, 75, 80] ∧
    List.Chain' (· ≤ ·)
      ((create_scan url).progress_percentage ::
        pctTrace (some (create_scan url)) serviceSeqCalls) ∧
    (pctTrace (some (create_scan url)) serviceSeqCalls).all (· ≤ 100) = true ∧
    (set_error (runCalls (some (create_scan url)) serviceSeqCalls) msg).map
        (fun p => (p.progress_percentage, p.has_error)) = some (80, true) := by
  have hp : pctTrace (some (create_scan url)) seqCalls =
      [0, 10, 20, 30, 40, 45, 57, 60, 71, 75, 80, 90] := rfl
  have hq : pctTrace (some (create_scan url)) serviceSeqCalls =
      [0, 10, 20, 30, 40, 45, 57, 60, 71, 75, 80] := rfl
  have hzero : (create_scan url).progress_percentage = 0 := rfl
  refine ⟨hp, rfl, ?_, ?_, rfl, hq, ?_, ?_, rfl⟩
  · rw [hp, hzero]
    norm_num [List.chain'_cons]
  · rw [hp]; decide
  · rw [hq, hzero]
    norm_num [List.chain'_cons]
  · rw [hq]; decide

/-- C8: once a client is admitted at time `t`, a second request strictly
inside the 10-minute window is rejected with a positive number of
remaining minutes in the message, the rejection leaves the stored
timestamp untouched, and a request at or after `t + 600` seconds is
admitted again. -/
theorem c8_rate_limit_cooldown (last? : Option ℕ) (t t2 t3 : ℕ)
    (hadm : (can_scan last? t).1.1 = true)
    (h21 : t ≤ t2) (h22 : t2 < t + 600) (h3 : t + 600 ≤ t3) :
    (can_scan (can_scan last? t).2 t2).1.1 = false ∧
    (∃ m, 0 < m ∧
      (can_scan (can_scan last? t).2 t2).1.2 = some (rate_limit_message m)) ∧
    (can_scan (can_scan last? t).2 t2).2 = (can_scan last? t).2 ∧
    (can_scan (can_scan last? t).2 t3).1.1 = true := by
  have hst : (can_scan last? t).2 = some t := by
    cases last? with
    | none => rfl
    | some last =>
      by_cases h : t - last < rateLimitSeconds
      · simp [can_scan, h] at hadm
      · simp [can_scan, h]
  have hlt : t2 - t < rateLimitSeconds := by unfold rateLimitSeconds; omega
  have hge : ¬ t3 - t < rateLimitSeconds := by unfold rateLimitSeconds; omega
  rw [hst]
  refine ⟨?_, ⟨10 - (t2 - t) / 60, ?_, ?_⟩, ?_, ?_⟩
  · simp [can_scan, hlt]
  · have hq : (t2 - t) / 60 ≤ 9 := by
      unfold rateLimitSeconds at hlt; omega
    omega
  · simp [can_scan, hlt]
  · simp [can_scan, hlt]
  · simp [can_scan, hge]

/-- C8 (witness): the cooldown theorem at a fresh client admitted at 0,
retrying at 300 seconds and again at 600. -/
theorem c8_witness :
    (can_scan (can_scan none 0).2 300).1.1 = false ∧
    (∃ m, 0 < m ∧
      (can_scan (can_scan none 0).2 300).1.2 = some (rate_limit_message m)) ∧
    (can_scan (can_scan none 0).2 300).2 = (can_scan none 0).2 ∧
    (can_scan (can_scan none 0).2 600).1.1 = true :=
  c8_rate_limit_cooldown none 0 300 600 rfl (by decide) (by decide) (by decide)

/-- Every branch of `validate_scan_request` returns the rate-limiter state
produced by the leading `can_scan` call. -/
theorem validate_scan_request_state (resolve : String → Option IPv4)
    (last? : Option ℕ) (now : ℕ) (url : String) (cp oc lr : Bool) :
    (validate_scan_request resolve last? now url cp oc lr).2 =
      (can_scan last? now).2 := by
  unfold validate_scan_request
  dsimp only
  split_ifs <;> rfl

/-- C10: the rate-limit check runs first in `validate_scan_request` and
records the client's timestamp as soon as it passes, so a request that
then fails URL, target or attestation validation still consumes the
once-per-10-minutes slot, and an immediate retry from the same client is
rejected with the rate-limit reason. -/
theorem c10_rate_slot_consumed (resolve : String → Option IPv4)
    (now now2 : ℕ) (url url2 : String) (cp oc lr cp2 oc2 lr2 : Bool)
    (hfail : (validate_scan_request resolve none now url cp oc lr).1.is_valid
      = false)
    (hreason : (validate_scan_request resolve none now url
      cp oc lr).1.blocked_reason ≠ some "rate_limit")
    (h21 : now ≤ now2) (h22 : now2 < now + 600) :
    (validate_scan_request resolve none now url cp oc lr).2 = some now ∧
    (validate_scan_request resolve
        (validate_scan_request resolve none now url cp oc lr).2
        now2 url2 cp2 oc2 lr2).1.is_valid = false ∧
    (validate_scan_request resolve
        (validate_scan_request resolve none now url cp oc lr).2
        now2 url2 cp2 oc2 lr2).1.blocked_reason = some "rate_limit" := by
  have hs : (validate_scan_request resolve none now url cp oc lr).2 = some now := by
    rw [validate_scan_request_state]; rfl
  have hlt : now2 - now < rateLimitSeconds := by unfold rateLimitSeconds; omega
  rw [hs]
  refine ⟨rfl, ?_, ?_⟩ <;> simp [validate_scan_request, can_scan, hlt]

/-- C10 (witness): the slot-consumption theorem applied to a request with
an invalid `ftp://` URL at time 0 and a corrected retry at 300 seconds. -/
theorem c10_witness :
    (validate_scan_request litResolver none 0 "ftp://example.com"
        false false false).2 = some 0 ∧
    (validate_scan_request litResolver
        (validate_scan_request litResolver none 0 "ftp://example.com"
          false false false).2
        300 "https://example.com" true true true).1.is_valid = false ∧
    (validate_scan_request litResolver
        (validate_scan_request litResolver none 0 "ftp://example.com"
          false false false).2
        300 "https://example.com" true true true).1.blocked_reason =
      some "rate_limit" :=
  c10_rate_slot_consumed litResolver 0 300 "ftp://example.com"
    "https://example.com" false false false true true true
    (by decide) (by decide) (by decide) (by decide)

end CyberGuardX
